import Mathlib

/-!
Verification of the linux-ai-assistant event pipeline against its
natural-language specification.

The Python sources under study are shallowly embedded below: pure helper
functions become Lean functions, the per-process mutable fields
(`last_analyzed_command`, `last_analyzed_time`, `command_history`) become
explicit state values threaded through the operations, machine floats used
as POSIX timestamps are modelled as rationals, byte strings as lists of
naturals below 256, and external effects (HTTP transport, JSON parsing,
filesystem probes) as explicit outcome parameters.  Each definition is
translated from the corresponding function of the repository, named in its
doc comment.
-/

set_option maxRecDepth 4000

/-- Boolean string check used throughout: does p occur at the start of s?
Models Python str.startswith on the character level. -/
def swith (s p : String) : Bool := p.data.isPrefixOf s.data

/-- Does the needle occur as a contiguous sublist? Helper for containsSub. -/
def hasSubList (needle : List Char) : List Char → Bool
  | [] => needle.isEmpty
  | c :: rest => needle.isPrefixOf (c :: rest) || hasSubList needle rest

/-- Models the Python membership test (sub in hay) on strings. -/
def containsSub (hay sub : String) : Bool := hasSubList sub.data hay.data

/-- The dedup key built by ErrorAnalyzer: the Python f-string
f"{command}_{exit_code}" (error_analyzer.py line 71). -/
def commandKey (command : String) (exitCode : Int) : String :=
  command ++ "_" ++ toString exitCode

/-- Process-local deduplication state of ErrorAnalyzer: fields
last_analyzed_command (initially None) and last_analyzed_time (initially 0)
from error_analyzer.py lines 20-21. -/
structure DedupState where
  lastAnalyzedCommand : Option String
  lastAnalyzedTime : ℚ
deriving DecidableEq

/-- Translation of CommandHistoryAnalyzer.should_analyze_command
(command_history.py lines 202-215): skip exit code 130, shell builtins,
the tool's own monitor invocations and history commands. -/
def should_analyze_command (command : String) (exitCode : Int) : Bool :=
  if exitCode = 130 then false
  else if swith command "return" || swith command "local" ||
      swith command "set" || swith command "export" ||
      (containsSub command "python3" && containsSub command "--monitor") ||
      containsSub command "_ai_companion" ||
      swith command "history" then false
  else true

/-- Translation of ErrorAnalyzer._should_analyze (error_analyzer.py lines
68-79): reject when the same command key was analyzed within the last 5
seconds, otherwise defer to should_analyze_command. -/
def should_analyze (s : DedupState) (command : String) (exitCode : Int)
    (now : ℚ) : Bool :=
  if s.lastAnalyzedCommand = some (commandKey command exitCode) ∧
      now - s.lastAnalyzedTime < 5 then false
  else should_analyze_command command exitCode

/-- Translation of ErrorAnalyzer._update_analysis_cache (error_analyzer.py
lines 81-86): overwrite both stored fields with the accepted key and the
acceptance time. -/
def update_analysis_cache (command : String) (exitCode : Int) (now : ℚ) :
    DedupState :=
  ⟨some (commandKey command exitCode), now⟩

/-- One entry of the in-process command log: dataclass CommandInfo of
command_history.py lines 14-22.  The output and error byte strings are
modelled as lists of byte values; timestamps as rationals. -/
structure CommandInfo where
  command : String
  exitCode : Int
  output : List Nat
  error : List Nat
  timestamp : ℚ
  cwd : String
deriving DecidableEq

/-- Python negative-index slice lst[-k:]: the last k elements, except that
k = 0 yields the whole list (lst[-0:] is lst[0:]). -/
def pyLastSlice {α : Type} (k : Nat) (l : List α) : List α :=
  if k = 0 then l else l.drop (l.length - k)

/-- Translation of CommandHistoryAnalyzer.add_command (command_history.py
lines 64-70): append, then when the length exceeds max_history keep only
the last max_history // 2 entries. -/
def add_command (maxHistory : Nat) (history : List CommandInfo)
    (info : CommandInfo) : List CommandInfo :=
  let h := history ++ [info]
  if h.length > maxHistory then pyLastSlice (maxHistory / 2) h else h

/-- The ordered indicator table of
SystemInfoCollector._identify_project_type (system_info.py lines 163-170);
Python dict literals iterate in insertion order. -/
def key_indicators : List (String × List String) :=
  [("python", ["requirements.txt", "setup.py", "pyproject.toml", "main.py"]),
   ("node", ["package.json", "node_modules"]),
   ("web", ["index.html", "index.php"]),
   ("docker", ["Dockerfile", "docker-compose.yml"]),
   ("git", [".git"]),
   ("config", ["nginx.conf", "apache.conf", ".env"])]

/-- The for-loop of _identify_project_type: first indicator set with any
member present wins; the found indicators become the key files. -/
def identify_project_type_loop :
    List (String × List String) → List String → String × List String
  | [], _ => ("unknown", [])
  | (pt, inds) :: rest, files =>
    let found := inds.filter (fun f => decide (f ∈ files))
    if found.isEmpty then identify_project_type_loop rest files
    else (pt, found)

/-- Translation of SystemInfoCollector._identify_project_type
(system_info.py lines 161-178): returns the project type together with the
key files appended by the loop. -/
def identify_project_type (files : List String) : String × List String :=
  identify_project_type_loop key_indicators files

/-- Result record of SystemInfoCollector.get_system_status: dataclass
SystemStatus of system_info.py lines 14-24. -/
structure SystemStatus where
  cpuPercent : ℚ
  memoryPercent : ℚ
  memoryTotalGb : ℚ
  memoryAvailableGb : ℚ
  diskPercent : ℚ
  diskTotalGb : ℚ
  diskFreeGb : ℚ
  processes : Nat
deriving DecidableEq

/-- Outcome of the /proc/meminfo probe: the dict computed inside the try
block of _get_memory_info. -/
structure MemProbe where
  usagePercent : ℚ
  totalGb : ℚ
  availableGb : ℚ
deriving DecidableEq

/-- Outcome of the shutil.disk_usage probe: the dict computed inside the
try block of _get_disk_info. -/
structure DiskProbe where
  usagePercent : ℚ
  totalGb : ℚ
  freeGb : ℚ
deriving DecidableEq

/-- The external world seen by one get_system_status call: each field is
the outcome of one independent probe, none meaning that probe raised (or,
for cpu, produced no parsable line). -/
structure ProbeEnv where
  mem : Option MemProbe
  disk : Option DiskProbe
  cpu : Option ℚ
  procs : Option Nat

/-- SystemInfoCollector._get_memory_info (system_info.py lines 83-97): the
probe value, or the all-zero default dict on failure. -/
def get_memory_info (e : ProbeEnv) : MemProbe := e.mem.getD ⟨0, 0, 0⟩

/-- SystemInfoCollector._get_disk_info (system_info.py lines 99-109). -/
def get_disk_info (e : ProbeEnv) : DiskProbe := e.disk.getD ⟨0, 0, 0⟩

/-- SystemInfoCollector._get_cpu_percent (system_info.py lines 111-123):
0.0 on any failure. -/
def get_cpu_percent (e : ProbeEnv) : ℚ := e.cpu.getD 0

/-- SystemInfoCollector._get_process_count (system_info.py lines
125-133). -/
def get_process_count (e : ProbeEnv) : Nat := e.procs.getD 0

/-- Translation of SystemInfoCollector.get_system_status (system_info.py
lines 54-81): compose the four independent probes into one snapshot.  The
outer try/except of the source cannot fire once each probe absorbs its own
failure, so it is not represented. -/
def get_system_status (e : ProbeEnv) : SystemStatus :=
  { cpuPercent := get_cpu_percent e
    memoryPercent := (get_memory_info e).usagePercent
    memoryTotalGb := (get_memory_info e).totalGb
    memoryAvailableGb := (get_memory_info e).availableGb
    diskPercent := (get_disk_info e).usagePercent
    diskTotalGb := (get_disk_info e).totalGb
    diskFreeGb := (get_disk_info e).freeGb
    processes := get_process_count e }

/-- Python str.lower() restricted to the ASCII range, per character (the
configured provider type names are all ASCII). -/
def pyLower (s : String) : String := ⟨s.data.map Char.toLower⟩

/-- The three concrete provider classes of ai_provider.py: OpenAIProvider,
OllamaProvider, AnthropicProvider. -/
inductive ProviderClass where
  | openAIP
  | ollamaP
  | anthropicP
deriving DecidableEq

/-- The providers class attribute of AIProviderFactory (ai_provider.py
lines 181-186); the custom type maps to the OpenAI-compatible class. -/
def providers : List (String × ProviderClass) :=
  [("openai", ProviderClass.openAIP), ("ollama", ProviderClass.ollamaP),
   ("anthropic", ProviderClass.anthropicP), ("custom", ProviderClass.openAIP)]

/-- Translation of AIProviderFactory.create_provider (ai_provider.py lines
188-195): look the lowercased type string up in the table; raise ValueError
with the unsupported-type message otherwise. -/
def create_provider (ty : String) : Except String ProviderClass :=
  match providers.lookup (pyLower ty) with
  | some p => Except.ok p
  | none => Except.error ("不支持的AI服务类型: " ++ ty)

/-- The dict returned by AIProvider._http_request (ai_provider.py lines
27-63): status_code, content, and the optional error message. -/
structure HttpResult where
  statusCode : Nat
  content : String
  err : Option String
deriving DecidableEq

/-- The possible outcomes of the urllib call inside _http_request: a
response, an HTTPError carrying a status and body, or any other exception
(connection failure, timeout, ...) carrying only its message. -/
inductive TransportOutcome where
  | success (code : Nat) (body : String)
  | httpError (code : Nat) (body : String) (msg : String)
  | failure (msg : String)

/-- Translation of AIProvider._http_request (ai_provider.py lines 27-63):
every transport outcome, timeouts included, becomes a result dict; an
exception other than HTTPError yields status_code 0 with empty content. -/
def http_request : TransportOutcome → HttpResult
  | TransportOutcome.success c b => ⟨c, b, none⟩
  | TransportOutcome.httpError c b m => ⟨c, b, some m⟩
  | TransportOutcome.failure m => ⟨0, "", some m⟩

/-- The error_info construction of OpenAIProvider.call_api for a non-200
response (ai_provider.py lines 95-105).  parseErrObj models the nested
parse of the body: none = json.loads raised, some none = parsed but
without an error key, some (some m) = the extracted error message; the
slice [:200] is String.take.  In call_api itself, parseChat models
json.loads plus the choices[0].message.content lookup on a 200 body,
Except.error carrying the raised exception's message, and str.strip is
String.trim. -/
def openai_error_info (parseErrObj : String → Option (Option String))
    (resp : HttpResult) : String :=
  let info0 := "API调用失败: " ++ toString resp.statusCode
  let info1 := match resp.err with
    | some m => info0 ++ " - " ++ m
    | none => info0
  if resp.content ≠ "" then
    match parseErrObj resp.content with
    | none => info1 ++ " - Response: " ++ resp.content.take 200
    | some none => info1
    | some (some m) => info1 ++ " - " ++ m
  else info1

/-- The top-level branch of OpenAIProvider.call_api over the error-info
construction above. -/
def openai_call_api (parseChat : String → Except String String)
    (parseErrObj : String → Option (Option String))
    (resp : HttpResult) : String :=
  if resp.statusCode = 200 then
    match parseChat resp.content with
    | Except.ok text => text.trim
    | Except.error e => "API调用失败: " ++ e
  else openai_error_info parseErrObj resp

/-- Translation of OllamaProvider.call_api (ai_provider.py lines 111-140);
parseGen models json.loads plus the response-field lookup. -/
def ollama_call_api (parseGen : String → Except String String)
    (resp : HttpResult) : String :=
  if resp.statusCode = 200 then
    match parseGen resp.content with
    | Except.ok text => text.trim
    | Except.error e => "连接Ollama失败: " ++ e
  else "Ollama API调用失败: " ++ toString resp.statusCode ++ " - " ++
    resp.content

/-- Translation of AnthropicProvider.call_api (ai_provider.py lines
143-175); parseMsg models json.loads plus the content[0].text lookup. -/
def anthropic_call_api (parseMsg : String → Except String String)
    (resp : HttpResult) : String :=
  if resp.statusCode = 200 then
    match parseMsg resp.content with
    | Except.ok text => text.trim
    | Except.error e => "Anthropic API调用失败: " ++ e
  else "Anthropic API调用失败: " ++ toString resp.statusCode

/-- The standard base64 alphabet used by both the coreutils base64 tool
invoked by the capture script and Python base64.b64decode. -/
def b64Alphabet : List Char :=
  ['A', 'B', 'C', 'D', 'E', 'F', 'G', 'H', 'I', 'J', 'K', 'L', 'M',
   'N', 'O', 'P', 'Q', 'R', 'S', 'T', 'U', 'V', 'W', 'X', 'Y', 'Z',
   'a', 'b', 'c', 'd', 'e', 'f', 'g', 'h', 'i', 'j', 'k', 'l', 'm',
   'n', 'o', 'p', 'q', 'r', 's', 't', 'u', 'v', 'w', 'x', 'y', 'z',
   '0', '1', '2', '3', '4', '5', '6', '7', '8', '9', '+', '/']

/-- The alphabet character of a 6-bit value. -/
def b64Chr (v : Nat) : Char := b64Alphabet.getD v 'A'

/-- First index of a character in a list, if present. -/
def idxOf : List Char → Char → Option Nat
  | [], _ => none
  | a :: rest, c => if a = c then some 0 else (idxOf rest c).map (· + 1)

/-- The 6-bit value of an alphabet character, none for padding or
out-of-alphabet input. -/
def b64DecChar (c : Char) : Option Nat := idxOf b64Alphabet c

/-- RFC 4648 base64 of a byte string, with padding and without line wraps
(base64 -w 0, the encoder run by the capture script). -/
def b64Encode : List Nat → List Char
  | [] => []
  | [a] => [b64Chr (a / 4), b64Chr (a % 4 * 16), '=', '=']
  | [a, b] =>
    [b64Chr (a / 4), b64Chr (a % 4 * 16 + b / 16), b64Chr (b % 16 * 4), '=']
  | a :: b :: c :: rest =>
    b64Chr (a / 4) :: b64Chr (a % 4 * 16 + b / 16) ::
      b64Chr (b % 16 * 4 + c / 64) :: b64Chr (c % 64) :: b64Encode rest

/-- Base64 decoding as performed by Python base64.b64decode on
well-padded input: four characters yield three bytes, with the two
padding forms closing the string; anything else is a decode failure. -/
def b64Decode : List Char → Option (List Nat)
  | [] => some []
  | c1 :: c2 :: c3 :: c4 :: rest =>
    match b64DecChar c1, b64DecChar c2 with
    | some v1, some v2 =>
      if c3 = '=' then
        if c4 = '=' ∧ rest = [] then some [v1 * 4 + v2 / 16] else none
      else
        match b64DecChar c3 with
        | some v3 =>
          if c4 = '=' then
            if rest = [] then
              some [v1 * 4 + v2 / 16, v2 % 16 * 16 + v3 / 4]
            else none
          else
            match b64DecChar c4, b64Decode rest with
            | some v4, some tail =>
              some ((v1 * 4 + v2 / 16) :: (v2 % 16 * 16 + v3 / 4) ::
                (v3 % 4 * 64 + v4) :: tail)
            | _, _ => none
        | none => none
    | _, _ => none
  | _ => none

/-- Is the byte a UTF-8 continuation byte (0x80-0xBF)? -/
def isCont (b : Nat) : Bool := decide (128 ≤ b ∧ b ≤ 191)

/-- The continuation-byte requirement of a UTF-8 leading byte: none for
an invalid leading byte, otherwise the number of continuation bytes and
the allowed range of the first of them.  This is the strict criterion of
Python bytes.decode with the utf-8 codec: overlong encodings (0xC0/0xC1,
0xE0 or 0xF0 with a low second byte), surrogates (0xED with a high second
byte) and code points beyond U+10FFFF (0xF4 with a high second byte,
0xF5-0xFF) are rejected. -/
def contSpec (b : Nat) : Option (Nat × Nat × Nat) :=
  if b ≤ 127 then some (0, 0, 0)
  else if 194 ≤ b ∧ b ≤ 223 then some (1, 128, 191)
  else if b = 224 then some (2, 160, 191)
  else if (225 ≤ b ∧ b ≤ 236) ∨ b = 238 ∨ b = 239 then some (2, 128, 191)
  else if b = 237 then some (2, 128, 159)
  else if b = 240 then some (3, 144, 191)
  else if 241 ≤ b ∧ b ≤ 243 then some (3, 128, 191)
  else if b = 244 then some (3, 128, 143)
  else none

/-- Strict UTF-8 validity of a byte string: every leading byte must be
followed by its required continuation bytes, the first in the range
contSpec demands and the rest in the generic continuation range. -/
def utf8Valid : List Nat → Bool
  | [] => true
  | b :: rest =>
    match contSpec b, rest with
    | none, _ => false
    | some (0, _, _), r => utf8Valid r
    | some (1, lo, hi), c1 :: r =>
      decide (lo ≤ c1 ∧ c1 ≤ hi) && utf8Valid r
    | some (2, lo, hi), c1 :: c2 :: r =>
      decide (lo ≤ c1 ∧ c1 ≤ hi) && (isCont c2 && utf8Valid r)
    | some (3, lo, hi), c1 :: c2 :: c3 :: r =>
      decide (lo ≤ c1 ∧ c1 ≤ hi) && (isCont c2 && (isCont c3 && utf8Valid r))
    | some _, _ => false

/-- Does bash echo treat its single quoted argument as an option word?
Exactly the words of a dash followed by one or more letters from n, e, E
(bytes 110, 101, 69) are swallowed as options; anything else, a lone dash
included, is printed literally. -/
def isEchoOptionArg : List Nat → Bool
  | 45 :: rest =>
    !rest.isEmpty && rest.all (fun b => b == 110 || b == 101 || b == 69)
  | _ => false

/-- The bash echo builtin applied to the single argument
"$stderr_content": an option word is consumed, leaving no operands — with
n among the options not even the trailing newline is printed — and any
other content is printed followed by one newline byte. -/
def bashEcho (content : List Nat) : List Nat :=
  if isEchoOptionArg content then
    if content.contains 110 then [] else [10]
  else content ++ [10]

/-- The transport-safe encoding applied by the capture script
(integration.py line 83): stderr_encoded is the output of
echo "$stderr_content" | base64 -w 0, with the echo builtin modelled by
bashEcho — for ordinary contents it appends one newline byte before
base64 sees them, while option-like contents are swallowed.  The variable
itself can never hold NUL bytes, and command substitution has already
stripped trailing newlines from the captured file. -/
def shell_encode_stderr (content : List Nat) : List Char :=
  b64Encode (bashEcho content)

/-- Translation of AICompanion._decode_stderr (app.py lines 129-139) at
the byte level: empty input stays empty; a successful base64 decode whose
bytes are valid UTF-8 yields those bytes; when base64 decoding fails, or
the decoded bytes are not valid UTF-8 — the bare except also catches the
UnicodeDecodeError of .decode('utf-8') — the raw argument is returned
unchanged. -/
def decode_stderr (s : List Char) : List Nat :=
  if s.isEmpty then []
  else
    match b64Decode s with
    | some bytes => if utf8Valid bytes then bytes else s.map Char.toNat
    | none => s.map Char.toNat

/-- Python str.split() with no argument: split on whitespace runs,
dropping empty pieces.  The accumulator holds the current token
reversed. -/
def splitWsAux : List Char → List Char → List String
  | [], acc => if acc.isEmpty then [] else [⟨acc.reverse⟩]
  | c :: rest, acc =>
    if c.isWhitespace then
      if acc.isEmpty then splitWsAux rest []
      else (⟨acc.reverse⟩ : String) :: splitWsAux rest []
    else splitWsAux rest (c :: acc)

/-- The program name of a command line: command.split()[0] if the split is
non-empty, else the empty string (command_history.py line 137). -/
def firstToken (command : String) : String :=
  match splitWsAux command.data [] with
  | [] => ""
  | t :: _ => t

/-- The command classification table self.command_patterns of
CommandHistoryAnalyzer (command_history.py lines 41-52), in insertion
order. -/
def command_patterns_table : List (String × List String) :=
  [("文件操作", ["ls", "cd", "pwd", "mkdir", "rmdir", "cp", "mv", "rm",
     "find", "locate"]),
   ("文本处理", ["cat", "less", "more", "head", "tail", "grep", "sed",
     "awk", "sort", "uniq"]),
   ("系统管理", ["ps", "top", "htop", "kill", "systemctl", "service",
     "mount", "umount"]),
   ("网络操作", ["ping", "curl", "wget", "ssh", "scp", "rsync", "netstat",
     "ss"]),
   ("权限管理", ["chmod", "chown", "sudo", "su", "whoami", "groups"]),
   ("开发工具", ["git", "npm", "pip", "python", "node", "make", "gcc",
     "vim", "nano"]),
   ("容器技术", ["docker", "docker-compose", "kubectl", "podman"]),
   ("压缩解压", ["tar", "zip", "unzip", "gzip", "gunzip"]),
   ("包管理", ["apt", "yum", "dnf", "brew", "snap"]),
   ("进程监控", ["ps", "pgrep", "pkill", "jobs", "nohup", "screen",
     "tmux"])]

/-- The first category whose program-name set matches the command's first
token by startswith, per command (the inner loop with break of
analyze_command_patterns). -/
def classifyCommand (command : String) : Option String :=
  (command_patterns_table.find?
    (fun pr => pr.2.any (fun pc => swith (firstToken command) pc))).map
    (fun pr => pr.1)

/-- Increment a category count in an ordered association list, appending
the category on first touch: Python defaultdict(int) insertion order. -/
def bumpCount : List (String × Nat) → String → List (String × Nat)
  | [], name => [(name, 1)]
  | (k, v) :: rest, name =>
    if k = name then (k, v + 1) :: rest else (k, v) :: bumpCount rest name

/-- The counting loop of analyze_command_patterns over the commands. -/
def countLoop : List String → List (String × Nat) → List (String × Nat)
  | [], acc => acc
  | cmd :: rest, acc =>
    match classifyCommand cmd with
    | some name => countLoop rest (bumpCount acc name)
    | none => countLoop rest acc

/-- Stable insertion keeping descending counts: an element goes after
every earlier element with a greater-or-equal count, as Python's stable
sorted(..., reverse=True) does. -/
def insertByCountDesc (x : String × Nat) :
    List (String × Nat) → List (String × Nat)
  | [] => [x]
  | y :: rest =>
    if x.2 ≤ y.2 then y :: insertByCountDesc x rest else x :: y :: rest

/-- Stable sort by count, descending. -/
def sortByCountDesc (l : List (String × Nat)) : List (String × Nat) :=
  l.foldl (fun acc x => insertByCountDesc x acc) []

/-- Translation of CommandHistoryAnalyzer.analyze_command_patterns
(command_history.py lines 129-144): count the categories of the commands
and present them sorted by count, descending, insertion order breaking
ties. -/
def analyze_command_patterns (commands : List String) :
    List (String × Nat) :=
  if commands.isEmpty then []
  else sortByCountDesc (countLoop commands [])

/-- The intent table sequence_patterns of analyze_command_sequence
(command_history.py lines 151-158). -/
def sequence_patterns : List (String × List String) :=
  [("项目设置", ["git clone", "cd", "npm install", "pip install"]),
   ("开发调试", ["python", "node", "npm run", "git add", "git commit"]),
   ("系统配置", ["sudo", "systemctl", "chmod", "chown"]),
   ("文件操作", ["mkdir", "cp", "mv", "rm", "ls"]),
   ("网络调试", ["curl", "wget", "ping", "netstat"]),
   ("容器操作", ["docker", "docker-compose"])]

/-- Translation of CommandHistoryAnalyzer.analyze_command_sequence
(command_history.py lines 146-166): the first intent whose keyword occurs
as a substring of one of the last three commands, a generic label
otherwise, and the empty string for fewer than two commands. -/
def analyze_command_sequence (commands : List String) : String :=
  if commands.length < 2 then ""
  else
    match sequence_patterns.find? (fun pr =>
      (pyLastSlice 3 commands).any (fun cmd =>
        pr.2.any (fun kw => containsSub cmd kw))) with
    | some pr => "正在进行" ++ pr.1
    | none => "常规操作"

/-- Dataclass DirectoryInfo of system_info.py lines 27-34; the file-type
counter dict becomes an association list. -/
structure DirectoryInfo where
  fileCount : Nat
  hasHiddenFiles : Bool
  fileTypes : List (String × Nat)
  projectType : String
  keyFiles : List String
deriving DecidableEq

/-- Dataclass GitInfo of system_info.py lines 37-44. -/
structure GitInfo where
  inRepo : Bool
  currentBranch : Option String
  hasChanges : Bool
  changedFiles : Nat
  recentCommits : Option (List String)
deriving DecidableEq

/-- Dataclass WorkPattern of command_history.py lines 25-30. -/
structure WorkPattern where
  mode : String
  activities : List String
  suggestions : List String
deriving DecidableEq

/-- Dataclass FullContext of context_analyzer.py lines 14-42: one
aggregated snapshot; the tool and service dicts become association
lists. -/
structure FullContext where
  cwd : String
  user : String
  shell : String
  osInfo : String
  systemStatus : SystemStatus
  directoryInfo : DirectoryInfo
  gitInfo : GitInfo
  installedTools : List (String × Bool)
  runningServices : List (String × Bool)
  networkAvailable : Bool
  recentCommands : List String
  workPattern : WorkPattern
  commandPatterns : List (String × Nat)
deriving DecidableEq

/-- Rendering of an optional branch name inside a Python f-string: None
prints as the string None. -/
def renderBranch : Option String → String
  | some b => b
  | none => "None"

/-- Translation of ContextAnalyzer.build_detailed_context_info
(context_analyzer.py lines 114-139): the joined info_parts list,
reproducing the source's missing newline before the key-files and
git-changes parts. -/
def build_detailed_context_info (context : FullContext) : String :=
  let parts1 := ["当前环境信息：\n- 工作目录: " ++ context.cwd ++
    "\n- 用户: " ++ context.user ++ "\n- 系统: " ++ context.osInfo]
  let parts2 :=
    if context.directoryInfo.projectType ≠ "unknown" then
      parts1 ++ ["\n- 当前目录: " ++ toString context.directoryInfo.fileCount
        ++ "个文件\n- 项目类型: " ++ context.directoryInfo.projectType] ++
      (if context.directoryInfo.keyFiles ≠ [] then
        ["- 关键文件: " ++
          String.intercalate ", " context.directoryInfo.keyFiles]
      else [])
    else parts1
  let parts3 :=
    if context.gitInfo.inRepo then
      parts2 ++ ["\n- Git仓库: 是 (分支: " ++
        renderBranch context.gitInfo.currentBranch ++ ")"] ++
      (if context.gitInfo.hasChanges then
        ["- Git状态: " ++ toString context.gitInfo.changedFiles ++
          "个文件有变更"]
      else [])
    else parts2
  String.join parts3

/-- Translation of ContextAnalyzer.build_command_context
(context_analyzer.py lines 141-163): last five commands joined by arrows,
top three category counts, and the inferred intent. -/
def build_command_context (context : FullContext) : String :=
  if context.recentCommands.isEmpty then ""
  else
    let p1 := ["\n最近执行的命令序列: " ++
      String.intercalate " → " (pyLastSlice 5 context.recentCommands)]
    let p2 :=
      if context.commandPatterns ≠ [] then
        p1 ++ ["\n最近操作模式: " ++ String.intercalate ", "
          ((context.commandPatterns.take 3).map
            (fun pr => pr.1 ++ "(" ++ toString pr.2 ++ "次)"))]
      else p1
    let seq := analyze_command_sequence context.recentCommands
    let p3 := if seq ≠ "" then p2 ++ ["\n当前操作意图: " ++ seq] else p2
    String.join p3

/-- Translation of ErrorAnalyzer._build_error_prompt (error_analyzer.py
lines 88-117).  Besides the failure event (command, exit code, error
output) and the aggregated context, the source reads the active AI
service's model name from the config manager; that read is the modelName
argument here. -/
def build_error_prompt (modelName command : String) (exitCode : Int)
    (errorOutput : String) (context : FullContext) : String :=
  "你是一个智能的Linux终端AI伴侣，专门帮助用户解决Linux命令问题。请用中文回答，并保持简洁实用。\n当前模型: "
    ++ modelName ++ "\n" ++ build_detailed_context_info context ++
    build_command_context context ++
    "\n\n刚才执行的命令失败了：\n命令: " ++ command ++
    "\n退出码: " ++ toString exitCode ++
    "\n错误输出: " ++ (if errorOutput = "" then "无" else errorOutput) ++
    "\n\n请根据当前环境和操作上下文，特别是最近的命令序列和操作模式，按以下格式回答：\n\n**错误原因：** [结合当前环境、错误输出和操作上下文分析错误原因]\n\n**解决方案：** \n[提供1-2个针对当前环境和操作流程的具体修复命令]\n\n**后续建议：** [基于你的工作模式、目录环境和命令序列，建议接下来可能需要的操作]\n\n请特别注意用户的操作模式和意图，提供连贯性的建议。"

/-- A minimal concrete aggregated context used to evaluate the prompt
builder at a specific input. -/
def ctx0 : FullContext :=
  { cwd := "/", user := "u", shell := "sh", osInfo := "linux",
    systemStatus := ⟨0, 0, 0, 0, 0, 0, 0, 0⟩,
    directoryInfo := ⟨0, false, [], "unknown", []⟩,
    gitInfo := ⟨false, none, false, 0, none⟩,
    installedTools := [], runningServices := [],
    networkAvailable := false, recentCommands := [],
    workPattern := ⟨"general", [], []⟩, commandPatterns := [] }

/-- State effects of ErrorAnalyzer.analyze_error (error_analyzer.py lines
23-48): a rejected event leaves the cache alone and yields no suggestion;
an accepted one runs the provider (aiOutcome summarizes provider creation
and call_api, Except.error being a raised exception) and only the
successful path updates the dedup cache; a raise yields the except-branch
error string without updating the cache. -/
def analyze_error_state (s : DedupState) (command : String)
    (exitCode : Int) (now : ℚ) (aiOutcome : Except String String) :
    DedupState × Option String :=
  if should_analyze s command exitCode now then
    match aiOutcome with
    | Except.ok suggestion =>
      (update_analysis_cache command exitCode now, some suggestion)
    | Except.error e => (s, some ("分析错误时出现问题: " ++ e))
  else (s, none)

/-- The mutable per-process state touched by AICompanion.monitor_command:
the in-process history list and the dedup cache. -/
structure AppState where
  history : List CommandInfo
  dedup : DedupState
deriving DecidableEq

/-- Translation of AICompanion.monitor_command (app.py lines 27-41) with
ContextAnalyzer.add_command_to_history (context_analyzer.py lines
200-214): decode the stderr argument, append the event to the history
unconditionally, then gate the analysis on a non-zero exit code and the
auto_error_analysis feature flag; the default history cap is 100. -/
def monitor_command (autoErrorAnalysis : Bool)
    (aiOutcome : Except String String) (s : AppState) (command : String)
    (exitCode : Int) (stderrEncoded : List Char) (now : ℚ) (cwd : String) :
    AppState × Option String :=
  let decoded := decode_stderr stderrEncoded
  let info : CommandInfo := ⟨command, exitCode, [], decoded, now, cwd⟩
  let s1 : AppState := ⟨add_command 100 s.history info, s.dedup⟩
  if exitCode ≠ 0 ∧ autoErrorAnalysis then
    let r := analyze_error_state s1.dedup command exitCode now aiOutcome
    (⟨s1.history, r.1⟩, r.2)
  else (s1, none)

/-- C1: if the Deduplicator accepts key ("foo", exit code 1) at time t and
its cache is updated accordingly (as the successful analysis path of
ErrorAnalyzer.analyze_error does), then a repeat call at t+2 is rejected
and a repeat call at t+6 is accepted again: the suppression window is 5
seconds from the last accepted time. -/
theorem dedup_window_boundary (s : DedupState) (t : ℚ)
    (haccept : should_analyze s "foo" 1 t = true) :
    should_analyze (update_analysis_cache "foo" 1 t) "foo" 1 (t + 2) = false ∧
    should_analyze (update_analysis_cache "foo" 1 t) "foo" 1 (t + 6) = true := by
  constructor
  · rw [should_analyze, if_pos]
    exact ⟨rfl, by simp [update_analysis_cache]; norm_num⟩
  · rw [should_analyze, if_neg]
    · decide
    · rintro ⟨-, h⟩
      simp [update_analysis_cache] at h
      norm_num at h

/-- Witness for dedup_window_boundary at the initial state and t = 0. -/
theorem dedup_window_boundary_witness :
    should_analyze ⟨none, 0⟩ "foo" 1 0 = true ∧
    (should_analyze (update_analysis_cache "foo" 1 0) "foo" 1 (0 + 2) = false ∧
     should_analyze (update_analysis_cache "foo" 1 0) "foo" 1 (0 + 6) = true) :=
  ⟨by decide, dedup_window_boundary ⟨none, 0⟩ 0 (by decide)⟩

/-- C5: the interactive-interrupt exit code 130 is never analyzed, for any
command, any stored dedup state and any time. -/
theorem exit_130_never_analyzed (s : DedupState) (command : String) (t : ℚ) :
    should_analyze s command 130 t = false := by
  rw [should_analyze, should_analyze_command]
  simp

/-- Folding add_command never truncates while the cap is not exceeded. -/
theorem foldl_add_command_small (es : List CommandInfo) :
    ∀ h : List CommandInfo, h.length + es.length ≤ 100 →
    es.foldl (add_command 100) h = h ++ es := by
  induction es with
  | nil => intro h _; simp
  | cons e rest ih =>
    intro h hle
    have hstep : add_command 100 h e = h ++ [e] := by
      rw [add_command, if_neg]
      simp at hle
      simp
      omega
    rw [List.foldl_cons, hstep, ih]
    · simp
    · simp at hle ⊢
      omega

/-- C4: appending 101 events to an empty tracker with cap 100 leaves
exactly 50 entries: the 50 most recently appended events, in their
original append order (the suffix es.drop 51 of the append sequence). -/
theorem history_cap_truncates (es : List CommandInfo)
    (hlen : es.length = 101) :
    es.foldl (add_command 100) [] = es.drop 51 ∧ (es.drop 51).length = 50 := by
  obtain ⟨x, hx⟩ : ∃ x, es.drop 100 = [x] := by
    apply List.length_eq_one.mp
    simp [hlen]
  have hsplit : es.take 100 ++ [x] = es := by
    rw [← hx, List.take_append_drop]
  constructor
  · conv_lhs => rw [← hsplit]
    rw [List.foldl_append, foldl_add_command_small _ [] (by simp [hlen]),
      List.nil_append]
    show add_command 100 (es.take 100) x = es.drop 51
    simp only [add_command]
    rw [hsplit, if_pos (by omega)]
    simp [pyLastSlice, hlen]
  · simp [hlen]

/-- Witness for history_cap_truncates on a concrete run of 101 distinct
events. -/
theorem history_cap_truncates_witness :
    ((List.range 101).map
      (fun i : Nat => CommandInfo.mk (toString i) 0 [] [] (i : ℚ) "/")).length = 101 ∧
    ((List.range 101).map
      (fun i : Nat => CommandInfo.mk (toString i) 0 [] [] (i : ℚ) "/")).foldl
        (add_command 100) [] =
      ((List.range 101).map
        (fun i : Nat => CommandInfo.mk (toString i) 0 [] [] (i : ℚ) "/")).drop 51 :=
  ⟨by rw [List.length_map, List.length_range],
   (history_cap_truncates _ (by rw [List.length_map, List.length_range])).1⟩

/-- C6: directory classification is first-match-wins over the fixed
indicator order python, node, web, docker, git, config: a listing with
package.json and no python indicator classifies as node, and a listing
with both requirements.txt and package.json classifies as python, the
first indicator set checked. -/
theorem project_type_first_match (files : List String) :
    ("requirements.txt" ∈ files → "package.json" ∈ files →
      (identify_project_type files).1 = "python") ∧
    ("package.json" ∈ files →
      "requirements.txt" ∉ files → "setup.py" ∉ files →
      "pyproject.toml" ∉ files → "main.py" ∉ files →
      (identify_project_type files).1 = "node") := by
  constructor
  · intro h1 _
    simp [identify_project_type, key_indicators, identify_project_type_loop,
      h1]
  · intro h1 h2 h3 h4 h5
    simp [identify_project_type, key_indicators, identify_project_type_loop,
      h1, h2, h3, h4, h5]

/-- Witness for project_type_first_match on the two listings named by the
claim. -/
theorem project_type_first_match_witness :
    ((identify_project_type ["requirements.txt", "package.json"]).1 =
      "python") ∧
    ((identify_project_type ["package.json"]).1 = "node") :=
  ⟨(project_type_first_match _).1 (by decide) (by decide),
   (project_type_first_match _).2 (by decide) (by decide) (by decide)
     (by decide) (by decide)⟩

/-- C7: in one snapshot, a failing probe yields 0 for exactly its own
fields, and every field of the snapshot is a function of its own probe
alone, so two environments agreeing on a probe produce identical values
for that probe's fields: one failing probe never alters its siblings. -/
theorem probe_failure_isolated (e e2 : ProbeEnv) :
    (e.mem = none → (get_system_status e).memoryPercent = 0 ∧
      (get_system_status e).memoryTotalGb = 0 ∧
      (get_system_status e).memoryAvailableGb = 0) ∧
    (e.disk = none → (get_system_status e).diskPercent = 0 ∧
      (get_system_status e).diskTotalGb = 0 ∧
      (get_system_status e).diskFreeGb = 0) ∧
    (e.cpu = none → (get_system_status e).cpuPercent = 0) ∧
    (e.procs = none → (get_system_status e).processes = 0) ∧
    (e.mem = e2.mem →
      (get_system_status e).memoryPercent = (get_system_status e2).memoryPercent ∧
      (get_system_status e).memoryTotalGb = (get_system_status e2).memoryTotalGb ∧
      (get_system_status e).memoryAvailableGb =
        (get_system_status e2).memoryAvailableGb) ∧
    (e.disk = e2.disk →
      (get_system_status e).diskPercent = (get_system_status e2).diskPercent ∧
      (get_system_status e).diskTotalGb = (get_system_status e2).diskTotalGb ∧
      (get_system_status e).diskFreeGb = (get_system_status e2).diskFreeGb) ∧
    (e.cpu = e2.cpu →
      (get_system_status e).cpuPercent = (get_system_status e2).cpuPercent) ∧
    (e.procs = e2.procs →
      (get_system_status e).processes = (get_system_status e2).processes) := by
  refine ⟨?_, ?_, ?_, ?_, ?_, ?_, ?_, ?_⟩ <;> intro h <;>
    simp [get_system_status, get_memory_info, get_disk_info,
      get_cpu_percent, get_process_count, h]

/-- Witness for probe_failure_isolated: the memory probe fails while the
disk probe returns the same value in both environments. -/
theorem probe_failure_isolated_witness :
    ((get_system_status ⟨none, some ⟨55, 20, 9⟩, none, some 7⟩).memoryPercent
        = 0 ∧
      (get_system_status ⟨none, some ⟨55, 20, 9⟩, none, some 7⟩).memoryTotalGb
        = 0 ∧
      (get_system_status ⟨none, some ⟨55, 20, 9⟩, none,
        some 7⟩).memoryAvailableGb = 0) ∧
    ((get_system_status ⟨none, some ⟨55, 20, 9⟩, none, some 7⟩).diskPercent =
      (get_system_status ⟨some ⟨40, 16, 8⟩, some ⟨55, 20, 9⟩, some 3,
        some 7⟩).diskPercent ∧
     (get_system_status ⟨none, some ⟨55, 20, 9⟩, none, some 7⟩).diskTotalGb =
      (get_system_status ⟨some ⟨40, 16, 8⟩, some ⟨55, 20, 9⟩, some 3,
        some 7⟩).diskTotalGb ∧
     (get_system_status ⟨none, some ⟨55, 20, 9⟩, none, some 7⟩).diskFreeGb =
      (get_system_status ⟨some ⟨40, 16, 8⟩, some ⟨55, 20, 9⟩, some 3,
        some 7⟩).diskFreeGb) :=
  ⟨(probe_failure_isolated ⟨none, some ⟨55, 20, 9⟩, none, some 7⟩
      ⟨some ⟨40, 16, 8⟩, some ⟨55, 20, 9⟩, some 3, some 7⟩).1 rfl,
   (probe_failure_isolated ⟨none, some ⟨55, 20, 9⟩, none, some 7⟩
      ⟨some ⟨40, 16, 8⟩, some ⟨55, 20, 9⟩, some 3, some 7⟩).2.2.2.2.2.1 rfl⟩

/-- C8: provider selection is case-insensitive in the configured type
string (two spellings with equal lowercase forms select the same provider
class), and any type whose lowercase form is not a supported name yields
the unsupported-provider-type error instead of a provider. -/
theorem provider_factory_case_insensitive (s t : String) (p : ProviderClass) :
    (pyLower s = pyLower t →
      (create_provider s = Except.ok p ↔ create_provider t = Except.ok p)) ∧
    (pyLower s ∉ ["openai", "ollama", "anthropic", "custom"] →
      create_provider s = Except.error ("不支持的AI服务类型: " ++ s)) := by
  constructor
  · intro h
    rcases hl : providers.lookup (pyLower t) with _ | q <;>
      simp [create_provider, h, hl]
  · intro h
    simp only [List.mem_cons, List.not_mem_nil, or_false, not_or] at h
    obtain ⟨h1, h2, h3, h4⟩ := h
    simp [create_provider, providers, List.lookup,
      beq_eq_false_iff_ne.mpr h1, beq_eq_false_iff_ne.mpr h2,
      beq_eq_false_iff_ne.mpr h3, beq_eq_false_iff_ne.mpr h4]

/-- Witness for provider_factory_case_insensitive: the three spellings of
openai named by the claim agree, and an unsupported type errors out. -/
theorem provider_factory_witness :
    (create_provider "OpenAI" = Except.ok ProviderClass.openAIP ↔
      create_provider "OPENAI" = Except.ok ProviderClass.openAIP) ∧
    create_provider "gpt" = Except.error ("不支持的AI服务类型: " ++ "gpt") :=
  ⟨(provider_factory_case_insensitive "OpenAI" "OPENAI"
      ProviderClass.openAIP).1 (by decide),
   (provider_factory_case_insensitive "gpt" "gpt"
      ProviderClass.openAIP).2 (by decide)⟩

/-- A string starts with itself extended by anything. -/
theorem swith_self_append (p r : String) : swith (p ++ r) p = true := by
  simp only [swith, String.data_append, List.isPrefixOf_iff_prefix]
  exact List.prefix_append _ _

/-- Appending on the right preserves a prefix relation. -/
theorem swith_extend (s p u : String) (h : swith s p = true) :
    swith (s ++ u) p = true := by
  simp only [swith, String.data_append, List.isPrefixOf_iff_prefix] at h ⊢
  exact h.trans (List.prefix_append _ _)

/-- C9: each provider variant is a total function returning a string, and
every failure path — transport exception (mapped by http_request to status
0), non-200 status, or malformed 200 body — yields a string starting with
that variant's human-readable error marker, while a well-formed 200 body
yields the extracted text; no path propagates an exception. -/
theorem call_api_never_raises
    (pc : String → Except String String)
    (po : String → Option (Option String))
    (pg pm : String → Except String String) (resp : HttpResult) :
    (resp.statusCode ≠ 200 →
      swith (openai_call_api pc po resp) "API调用失败" = true ∧
      swith (ollama_call_api pg resp) "Ollama API调用失败" = true ∧
      swith (anthropic_call_api pm resp) "Anthropic API调用失败" = true) ∧
    (∀ e, resp.statusCode = 200 → pc resp.content = Except.error e →
      swith (openai_call_api pc po resp) "API调用失败" = true) ∧
    (∀ e, resp.statusCode = 200 → pg resp.content = Except.error e →
      swith (ollama_call_api pg resp) "连接Ollama失败" = true) ∧
    (∀ e, resp.statusCode = 200 → pm resp.content = Except.error e →
      swith (anthropic_call_api pm resp) "Anthropic API调用失败" = true) ∧
    (∀ txt, resp.statusCode = 200 → pc resp.content = Except.ok txt →
      openai_call_api pc po resp = txt.trim) ∧
    (∀ txt, resp.statusCode = 200 → pg resp.content = Except.ok txt →
      ollama_call_api pg resp = txt.trim) ∧
    (∀ txt, resp.statusCode = 200 → pm resp.content = Except.ok txt →
      anthropic_call_api pm resp = txt.trim) ∧
    (∀ m, http_request (TransportOutcome.failure m) = ⟨0, "", some m⟩) := by
  refine ⟨?_, ?_, ?_, ?_, ?_, ?_, ?_, fun m => rfl⟩
  · intro h
    refine ⟨?_, ?_, ?_⟩
    · rw [openai_call_api, if_neg h, openai_error_info]
      rcases herr : resp.err with _ | m <;>
      rcases hpo : po resp.content with _ | om <;>
      (try rcases om with _ | m2) <;>
      by_cases hc : resp.content = "" <;>
      simp only [herr, hpo, hc, ne_eq, not_true_eq_false,
        not_false_eq_true, if_true, if_false, ite_true, ite_false, ite_not,
        swith, String.data_append, List.isPrefixOf_iff_prefix,
        List.append_assoc] <;>
      exact List.IsPrefix.trans (by decide) (List.prefix_append _ _)
    · rw [ollama_call_api, if_neg h]
      simp only [swith, String.data_append, List.isPrefixOf_iff_prefix,
        List.append_assoc]
      exact List.IsPrefix.trans (by decide) (List.prefix_append _ _)
    · rw [anthropic_call_api, if_neg h]
      simp only [swith, String.data_append, List.isPrefixOf_iff_prefix]
      exact List.IsPrefix.trans (by decide) (List.prefix_append _ _)
  · intro e h he
    rw [openai_call_api, if_pos h, he]
    simp only [swith, String.data_append, List.isPrefixOf_iff_prefix]
    exact List.IsPrefix.trans (by decide) (List.prefix_append _ _)
  · intro e h he
    rw [ollama_call_api, if_pos h, he]
    simp only [swith, String.data_append, List.isPrefixOf_iff_prefix]
    exact List.IsPrefix.trans (by decide) (List.prefix_append _ _)
  · intro e h he
    rw [anthropic_call_api, if_pos h, he]
    simp only [swith, String.data_append, List.isPrefixOf_iff_prefix]
    exact List.IsPrefix.trans (by decide) (List.prefix_append _ _)
  · intro txt h ht
    rw [openai_call_api, if_pos h, ht]
  · intro txt h ht
    rw [ollama_call_api, if_pos h, ht]
  · intro txt h ht
    rw [anthropic_call_api, if_pos h, ht]

/-- Witness for call_api_never_raises: a 500 response with malformed body
yields the three error strings. -/
theorem call_api_never_raises_witness :
    swith (openai_call_api (fun _ => Except.error "boom") (fun _ => none)
      ⟨500, "oops", some "HTTP Error 500"⟩) "API调用失败" = true ∧
    swith (ollama_call_api (fun _ => Except.error "boom")
      ⟨500, "oops", some "HTTP Error 500"⟩) "Ollama API调用失败" = true ∧
    swith (anthropic_call_api (fun _ => Except.error "boom")
      ⟨500, "oops", some "HTTP Error 500"⟩) "Anthropic API调用失败" = true :=
  (call_api_never_raises (fun _ => Except.error "boom") (fun _ => none)
    (fun _ => Except.error "boom") (fun _ => Except.error "boom")
    ⟨500, "oops", some "HTTP Error 500"⟩).1 (by decide)

/-- Decoding inverts the alphabet character of every 6-bit value. -/
theorem b64DecChar_chr : ∀ v < 64, b64DecChar (b64Chr v) = some v := by
  decide

/-- No alphabet character is the padding character. -/
theorem b64Chr_ne_pad (v : Nat) : b64Chr v ≠ '=' := by
  rcases Nat.lt_or_ge v 64 with h | h
  · exact (by decide : ∀ w < 64, b64Chr w ≠ '=') v h
  · rw [b64Chr, List.getD_eq_default]
    · decide
    · have hl : b64Alphabet.length = 64 := rfl
      omega

/-- Base64 round trip: decoding the encoding of any byte string yields it
back, bytes with embedded newlines and null bytes included. -/
theorem b64_roundtrip : ∀ l : List Nat, (∀ x ∈ l, x < 256) →
    b64Decode (b64Encode l) = some l
  | [], _ => by simp [b64Encode, b64Decode]
  | [a], h => by
    have ha : a < 256 := h a (by simp)
    have h1 := b64DecChar_chr (a / 4) (by omega)
    have h2 := b64DecChar_chr (a % 4 * 16) (by omega)
    simp [b64Encode, b64Decode, h1, h2]
    omega
  | [a, b], h => by
    have ha : a < 256 := h a (by simp)
    have hb : b < 256 := h b (by simp)
    have h1 := b64DecChar_chr (a / 4) (by omega)
    have h2 := b64DecChar_chr (a % 4 * 16 + b / 16) (by omega)
    have h3 := b64DecChar_chr (b % 16 * 4) (by omega)
    simp [b64Encode, b64Decode, h1, h2, h3, b64Chr_ne_pad]
    constructor <;> omega
  | a :: b :: c :: rest, h => by
    have ha : a < 256 := h a (by simp)
    have hb : b < 256 := h b (by simp)
    have hc : c < 256 := h c (by simp)
    have h1 := b64DecChar_chr (a / 4) (by omega)
    have h2 := b64DecChar_chr (a % 4 * 16 + b / 16) (by omega)
    have h3 := b64DecChar_chr (b % 16 * 4 + c / 64) (by omega)
    have h4 := b64DecChar_chr (c % 64) (by omega)
    have ih := b64_roundtrip rest (fun x hx => h x (by simp [hx]))
    simp [b64Encode, b64Decode, h1, h2, h3, h4, b64Chr_ne_pad, ih]
    refine ⟨?_, ?_, ?_⟩ <;> omega

/-- Encoding a non-empty byte string yields a non-empty character
string. -/
theorem b64Encode_ne_nil : ∀ l : List Nat, l ≠ [] → b64Encode l ≠ []
  | [], h => absurd rfl h
  | [_], _ => by simp [b64Encode]
  | [_, _], _ => by simp [b64Encode]
  | _ :: _ :: _ :: _, _ => by simp [b64Encode]

/-- C3 counterexample: the hook's transport encoding of the bytes of
"abc" does not decode back to "abc" — the decoder returns an extra
trailing newline byte, because echo appends one before base64 runs. -/
theorem stderr_roundtrip_counterexample :
    decode_stderr (shell_encode_stderr [97, 98, 99]) ≠ [97, 98, 99] := by
  decide

/-- Valid UTF-8 byte strings are closed under concatenation. -/
theorem utf8Valid_append : ∀ a b : List Nat, utf8Valid a = true →
    utf8Valid b = true → utf8Valid (a ++ b) = true
  | [], _, _, hb => hb
  | x :: rest, b, ha, hb => by
    rw [utf8Valid.eq_def] at ha
    dsimp only at ha
    rw [List.cons_append, utf8Valid.eq_def]
    dsimp only
    rcases hspec : contSpec x with _ | ⟨n, lo, hi⟩
    · rw [hspec] at ha
      simp at ha
    · rw [hspec] at ha
      rcases n with _ | _ | _ | _ | n
      · exact utf8Valid_append rest b ha hb
      · rcases rest with _ | ⟨c1, r⟩
        · simp at ha
        · simp only [List.cons_append, Bool.and_eq_true] at ha ⊢
          exact ⟨ha.1, utf8Valid_append r b ha.2 hb⟩
      · rcases rest with _ | ⟨c1, _ | ⟨c2, r⟩⟩
        · simp at ha
        · simp at ha
        · simp only [List.cons_append, Bool.and_eq_true] at ha ⊢
          exact ⟨ha.1, ha.2.1, utf8Valid_append r b ha.2.2 hb⟩
      · rcases rest with _ | ⟨c1, _ | ⟨c2, _ | ⟨c3, r⟩⟩⟩
        · simp at ha
        · simp at ha
        · simp at ha
        · simp only [List.cons_append, Bool.and_eq_true] at ha ⊢
          exact ⟨ha.1, ha.2.1, ha.2.2.1, utf8Valid_append r b ha.2.2.2 hb⟩
      · simp at ha

/-- C3 amended: for every stderr content the capture variable can
actually hold — a non-empty byte string without NUL bytes that bash echo
does not swallow as an option word — and whose bytes are valid UTF-8,
decoding the hook's transport encoding yields exactly the original bytes
followed by one newline byte appended by echo.  Outside this domain the
round trip fails: echo appends a newline to every ordinary payload (the
counterexample), an option-like content such as -n or -e is swallowed by
echo, NUL bytes never reach the encoder, and a non-UTF-8 payload makes
the monitor decoder fall back to the raw base64 text. -/
theorem stderr_roundtrip_newline (content : List Nat)
    (hbytes : ∀ x ∈ content, x < 256) (hne : content ≠ [])
    (hnul : 0 ∉ content) (hopt : isEchoOptionArg content = false)
    (hutf : utf8Valid content = true) :
    decode_stderr (shell_encode_stderr content) = content ++ [10] := by
  have hecho : bashEcho content = content ++ [10] := by
    rw [bashEcho, if_neg]
    simp [hopt]
  have hrt : b64Decode (b64Encode (content ++ [10])) = some (content ++ [10]) :=
    b64_roundtrip _ (by
      intro x hx
      rcases List.mem_append.mp hx with h | h
      · exact hbytes x h
      · simp at h
        omega)
  have hval : utf8Valid (content ++ [10]) = true :=
    utf8Valid_append content [10] hutf (by decide)
  have henc : b64Encode (content ++ [10]) ≠ [] :=
    b64Encode_ne_nil _ (by simp)
  rw [decode_stderr, shell_encode_stderr, hecho,
    if_neg (by simpa using henc), hrt]
  simp [hval]

/-- Witness for stderr_roundtrip_newline on the UTF-8 bytes of a
two-character Chinese text with an embedded newline between the
characters. -/
theorem stderr_roundtrip_newline_witness :
    decode_stderr (shell_encode_stderr [228, 184, 173, 10, 230, 150, 135]) =
      [228, 184, 173, 10, 230, 150, 135] ++ [10] :=
  stderr_roundtrip_newline [228, 184, 173, 10, 230, 150, 135]
    (by decide) (by decide) (by decide) (by decide) (by decide)

/-- C2 counterexample: two calls of the prompt builder with identical
failure event and identical aggregated context yield different prompt
strings when the configured model name read from the config manager
differs between the calls, so the prompt is not a function of
(event, context) alone. -/
theorem prompt_model_dependence_counterexample :
    build_error_prompt "model-a" "ls" 1 "" ctx0 ≠
      build_error_prompt "model-b" "ls" 1 "" ctx0 := by
  decide

/-- C2 amended: the prompt builder is deterministic as a pure function of
the failure event, the aggregated context and the active service's model
name: two calls whose five inputs are equal return byte-identical
strings; the embedding takes no other input, mirroring that the source
reads nothing else. -/
theorem prompt_deterministic_given_model (m1 m2 c1 c2 : String)
    (e1 e2 : Int) (o1 o2 : String) (ctx1 ctx2 : FullContext)
    (hm : m1 = m2) (hc : c1 = c2) (he : e1 = e2) (ho : o1 = o2)
    (hctx : ctx1 = ctx2) :
    build_error_prompt m1 c1 e1 o1 ctx1 =
      build_error_prompt m2 c2 e2 o2 ctx2 := by
  rw [hm, hc, he, ho, hctx]

/-- Witness for prompt_deterministic_given_model at one concrete call. -/
theorem prompt_deterministic_given_model_witness :
    build_error_prompt "m" "ls" 1 "" ctx0 =
      build_error_prompt "m" "ls" 1 "" ctx0 :=
  prompt_deterministic_given_model "m" "m" "ls" "ls" 1 1 "" "" ctx0 ctx0
    rfl rfl rfl rfl rfl

/-- The history always ends with the event just appended, truncation or
not. -/
theorem getLast?_add_command (mh : Nat) (h : List CommandInfo)
    (e : CommandInfo) : (add_command mh h e).getLast? = some e := by
  rw [add_command]
  have hlast : (h ++ [e]).getLast? = some e := by
    rw [List.getLast?_append_of_ne_nil _ (by simp)]
    rfl
  split
  · rw [pyLastSlice]
    split
    · exact hlast
    · rw [← hlast]
      conv_rhs =>
        rw [← List.take_append_drop ((h ++ [e]).length - mh / 2) (h ++ [e])]
      rw [List.getLast?_append_of_ne_nil]
      intro hnil
      have hcontra := congrArg List.length hnil
      simp [List.length_drop] at hcontra
      omega
  · exact hlast

/-- C10: every monitor invocation appends exactly the event built from its
arguments (command, exit code, decoded stderr, timestamp, working
directory) to the in-process history before any gating: the resulting
history is add_command of the previous one for every exit code (zero
included), every feature-flag value and every dedup state, and its last
entry is that event. -/
theorem monitor_appends_before_gating (auto : Bool)
    (ai : Except String String) (s : AppState) (command : String)
    (exitCode : Int) (enc : List Char) (now : ℚ) (cwd : String) :
    (monitor_command auto ai s command exitCode enc now cwd).1.history =
      add_command 100 s.history
        ⟨command, exitCode, [], decode_stderr enc, now, cwd⟩ ∧
    ((monitor_command auto ai s command exitCode enc now cwd).1.history
      ).getLast? =
      some ⟨command, exitCode, [], decode_stderr enc, now, cwd⟩ := by
  have h1 : (monitor_command auto ai s command exitCode enc now cwd).1.history
      = add_command 100 s.history
        ⟨command, exitCode, [], decode_stderr enc, now, cwd⟩ := by
    rw [monitor_command]
    split <;> rfl
  exact ⟨h1, by rw [h1]; exact getLast?_add_command _ _ _⟩
